import Mathlib

/-!
Verification of the as5047d driver crate (AS5047D magnetic position sensor).

This file gives a shallow embedding of the driver's core logic and proves the
specification's claims about it.  Machine integers (`u16`, `u32`, `u8`) are
modelled as `Nat`, with explicit masking (`&&& 2^k - 1` or `% 2^k`) at the
places the Rust code masks or truncates.  The SPI bus is modelled as an oracle
assigning to each transfer (indexed in issue order) either the two received
bytes or a transport error; the driver records the byte pairs it transmits.
-/

namespace As5047d

/-! ### Constants (src/driver.rs) -/

def READ_BIT : Nat := 0x4000

def PARITY_BIT : Nat := 0x8000

def ERROR_FLAG : Nat := 0x4000

def DATA_MASK : Nat := 0x3FFF

def NOP_COMMAND : Nat := 0x0000

/-- Maximum angle value (14-bit: 0-16383, representing 0-360 degrees). -/
def ANGLE_MAX : Nat := 0x3FFF + 1

/-! ### Bit population count

`countOnes n` models `u16::count_ones` for `n < 2^16`: it counts the set bits
among the 16 low-order binary digits, by 16 successive divisions by two. -/

def countOnesAux : Nat → Nat → Nat
  | 0, _ => 0
  | fuel + 1, n => n % 2 + countOnesAux fuel (n / 2)

def countOnes (n : Nat) : Nat := countOnesAux 16 n

/-! ### Parity codec (src/utils.rs) -/

/-- `calculate_parity`: odd parity of the lower 15 bits of a 16-bit value. -/
def calculate_parity (value : Nat) : Bool :=
  let bits := value &&& 0x7FFF
  countOnes bits % 2 == 1

/-- `verify_parity`: the full 16-bit frame has an even number of set bits. -/
def verify_parity (frame : Nat) : Bool :=
  countOnes frame % 2 == 0

/-! ### Errors (src/error.rs) -/

inductive Error (E : Type) where
  | Communication (e : E)
  | ParityError
  | SensorError
deriving DecidableEq

/-! ### Register addresses (src/register.rs) -/

inductive Register where
  | Nop
  | ErrFl
  | Prog
  | ZPosM
  | ZPosL
  | Settings1
  | Settings2
  | DiaAgc
  | Mag
  | AngleUnc
  | AngleCom
deriving DecidableEq

/-- `u16::from(register)`: the fixed 14-bit address of each register. -/
def Register.addr : Register → Nat
  | .Nop => 0x0000
  | .ErrFl => 0x0001
  | .Prog => 0x0003
  | .ZPosM => 0x0016
  | .ZPosL => 0x0017
  | .Settings1 => 0x0018
  | .Settings2 => 0x0019
  | .DiaAgc => 0x3FFC
  | .Mag => 0x3FFD
  | .AngleUnc => 0x3FFE
  | .AngleCom => 0x3FFF

/-! ### SPI transport model

One `SpiDevice::transfer` of a two-byte buffer either yields the two received
bytes or fails with a transport error of type `E`.  A run of the bus is an
oracle giving the outcome of the i-th transfer issued by the operation. -/

inductive SpiOutcome (E : Type) where
  | ok (rx : Nat × Nat)
  | err (e : E)

/-- `u16::to_be_bytes`: most significant byte first. -/
def to_be_bytes (w : Nat) : Nat × Nat := (w / 256 % 256, w % 256)

/-- `u16::from_be_bytes`: recompose a big-endian byte pair. -/
def from_be_bytes (p : Nat × Nat) : Nat := p.1 * 256 + p.2

/-- The parity framing step of src/driver.rs: set `PARITY_BIT` on an outgoing
word iff `calculate_parity` reports an odd low-15-bit population count. -/
def with_parity (command : Nat) : Nat :=
  if calculate_parity command then PARITY_BIT ||| command else command

/-- Response validation shared by `read_register` and `write_register`
(src/driver.rs lines 84-100 and 158-168): reject odd total parity, then the
device error flag (bit 14), otherwise keep the 14-bit payload. -/
def process_response {E : Type} (response : Nat) : Except (Error E) Nat :=
  if !verify_parity response then Except.error Error.ParityError
  else if response &&& ERROR_FLAG ≠ 0 then Except.error Error.SensorError
  else Except.ok (response &&& DATA_MASK)

/-- `read_register` (src/driver.rs): transaction 1 sends the parity-framed read
command and ignores the response; transaction 2 sends NOP and validates the
returned frame.  The first component records the transmitted byte pairs. -/
def read_register {E : Type} (resp : Nat → SpiOutcome E) (register : Register) :
    List (Nat × Nat) × Except (Error E) Nat :=
  let address := register.addr
  let command := with_parity (READ_BIT ||| address)
  let tx_cmd := to_be_bytes command
  match resp 0 with
  | .err e => ([tx_cmd], Except.error (Error.Communication e))
  | .ok _rx_cmd =>
    let tx_nop := to_be_bytes NOP_COMMAND
    match resp 1 with
    | .err e => ([tx_cmd, tx_nop], Except.error (Error.Communication e))
    | .ok rx_data =>
      ([tx_cmd, tx_nop], process_response (from_be_bytes rx_data))

/-- `write_register` (src/driver.rs): transaction 1 sends the parity-framed
command word (read bit clear), transaction 2 the masked and parity-framed data
frame, transaction 3 a NOP whose response is validated as in a read; the
payload of the verification frame is discarded. -/
def write_register {E : Type} (resp : Nat → SpiOutcome E) (register : Register)
    (data : Nat) : List (Nat × Nat) × Except (Error E) Unit :=
  let address := register.addr
  let command := with_parity address
  let tx_cmd := to_be_bytes command
  match resp 0 with
  | .err e => ([tx_cmd], Except.error (Error.Communication e))
  | .ok _rx_cmd =>
    let data_frame := with_parity (data &&& DATA_MASK)
    let tx_data := to_be_bytes data_frame
    match resp 1 with
    | .err e => ([tx_cmd, tx_data], Except.error (Error.Communication e))
    | .ok _rx_old =>
      let tx_nop := to_be_bytes NOP_COMMAND
      match resp 2 with
      | .err e => ([tx_cmd, tx_data, tx_nop], Except.error (Error.Communication e))
      | .ok rx_verify =>
        ([tx_cmd, tx_data, tx_nop],
          (process_response (from_be_bytes rx_verify)).map (fun _ => ()))

/-! ### Bitfield accessors (src/register.rs)

The `bitfield!` macro generates, for a field at bits `hi..lo` with mask `m`,
the getter `(v >> lo) & m` and the setter
`v = (v & !(m << lo)) | ((x & m) << lo)`; the 16-bit complement `!(m << lo)`
is written below as its explicit 16-bit constant. -/

namespace ZeroPositionMsbRegister

/-- ZPOSM field `zposm`: bits 7..0. -/
def zposm (v : Nat) : Nat := v &&& 0xFF

def set_zposm (v x : Nat) : Nat := (v &&& 0xFF00) ||| (x &&& 0xFF)

end ZeroPositionMsbRegister

namespace ZeroPositionLsbRegister

/-- ZPOSL error-enable flag at bit 7. -/
def comp_h_error_en (v : Nat) : Bool := v.testBit 7

/-- ZPOSL error-enable flag at bit 6. -/
def comp_l_error_en (v : Nat) : Bool := v.testBit 6

/-- ZPOSL field `zposl`: bits 5..0. -/
def zposl (v : Nat) : Nat := v &&& 0x3F

def set_zposl (v x : Nat) : Nat := (v &&& 0xFFC0) ||| (x &&& 0x3F)

end ZeroPositionLsbRegister

namespace DiagnosticsAgcRegister

/-- Magnetic field strength too low (bit 11). -/
def magl (v : Nat) : Bool := v.testBit 11

/-- Magnetic field strength too high (bit 10). -/
def magh (v : Nat) : Bool := v.testBit 10

/-- CORDIC overflow (bit 9). -/
def cof (v : Nat) : Bool := v.testBit 9

/-- Offset compensation finished (bit 8). -/
def lf (v : Nat) : Bool := v.testBit 8

/-- Automatic gain control value (bits 7..0). -/
def agc (v : Nat) : Nat := v &&& 0xFF

def magnetic_field_ok (v : Nat) : Bool := !magh v && !magl v

def is_valid (v : Nat) : Bool := !cof v && magnetic_field_ok v

end DiagnosticsAgcRegister

/-! ### Diagnostics decoder (src/diagnostics.rs) -/

namespace Diagnostics

/-- Magnetic field too strong (bit 13). -/
def comp_high (raw : Nat) : Bool := raw &&& 0x2000 != 0

/-- Magnetic field too weak (bit 12). -/
def comp_low (raw : Nat) : Bool := raw &&& 0x1000 != 0

/-- CORDIC overflow (bit 11). -/
def cordic_overflow (raw : Nat) : Bool := raw &&& 0x0800 != 0

/-- Offset compensation finished (bit 10). -/
def offset_comp_finished (raw : Nat) : Bool := raw &&& 0x0400 != 0

/-- Automatic gain control value (bits 7..0). -/
def agc_value (raw : Nat) : Nat := raw &&& 0x00FF

def magnetic_field_ok (raw : Nat) : Bool := !comp_high raw && !comp_low raw

def is_valid (raw : Nat) : Bool := !cordic_overflow raw && magnetic_field_ok raw

end Diagnostics

/-- Decidable equality of driver results, used to evaluate the embedding at
concrete inputs. -/
instance {ε α : Type} [DecidableEq ε] [DecidableEq α] : DecidableEq (Except ε α) :=
  fun a b =>
    match a, b with
    | Except.ok x, Except.ok y =>
      if h : x = y then Decidable.isTrue (by rw [h])
      else Decidable.isFalse (fun hc => h (by cases hc; rfl))
    | Except.error x, Except.error y =>
      if h : x = y then Decidable.isTrue (by rw [h])
      else Decidable.isFalse (fun hc => h (by cases hc; rfl))
    | Except.ok _, Except.error _ => Decidable.isFalse (fun hc => by cases hc)
    | Except.error _, Except.ok _ => Decidable.isFalse (fun hc => by cases hc)

/-! ### Ideal device model

For facade-level claims the driver is run against a well-behaved device: a
register file whose reads return, in the data transaction, a correctly
parity-framed frame carrying the register's 14-bit value with a clear error
flag, and whose writes store the transmitted 14-bit data.  The response to a
transaction whose received value the driver ignores is immaterial, so each
per-operation oracle is constant. -/

structure Device where
  regs : Register → Nat

/-- Bus oracle induced by an ideal device during a read of register `r`. -/
def Device.readOracle {E : Type} (d : Device) (r : Register) :
    Nat → SpiOutcome E :=
  fun _ => SpiOutcome.ok (to_be_bytes (with_parity (d.regs r &&& DATA_MASK)))

/-- Bus oracle induced by an ideal device during a write of `data`: the
verification transaction returns the freshly written 14-bit value framed with
correct parity. -/
def Device.writeOracle {E : Type} (_d : Device) (data : Nat) :
    Nat → SpiOutcome E :=
  fun _ => SpiOutcome.ok (to_be_bytes (with_parity (data &&& DATA_MASK)))

/-- Register-file update performed by an accepted write: the device keeps the
14 transmitted data bits. -/
def Device.store (d : Device) (r : Register) (data : Nat) : Device :=
  ⟨fun x => if x = r then data &&& DATA_MASK else d.regs x⟩

/-- `read_register` run against an ideal device. -/
def devRead (d : Device) (r : Register) : Except (Error Unit) Nat :=
  (read_register (d.readOracle r) r).2

/-- `write_register` run against an ideal device; on success the register file
holds the written value. -/
def devWrite (d : Device) (r : Register) (data : Nat) :
    Except (Error Unit) Device :=
  match (write_register (d.writeOracle data) r data).2 with
  | .error e => Except.error e
  | .ok _ => Except.ok (d.store r data)

/-- `modify_register` (src/driver.rs): read, transform, write back. -/
def modify_register (d : Device) (r : Register) (f : Nat → Nat) :
    Except (Error Unit) Device :=
  match devRead d r with
  | .error e => Except.error e
  | .ok data => devWrite d r (f data)

/-! ### Sensor facade (src/driver.rs) -/

/-- `u32::saturating_mul` for operands below `2^32`. -/
def saturating_mul_u32 (a b : Nat) : Nat := min (a * b) (2 ^ 32 - 1)

/-- `angle()`: read of the compensated angle register. -/
def angle (d : Device) : Except (Error Unit) Nat := devRead d Register.AngleCom

/-- `angle_degrees()`: saturating multiply by 360, floor-divide by `ANGLE_MAX`,
truncate to `u16`. -/
def angle_degrees (d : Device) : Except (Error Unit) Nat :=
  match angle d with
  | .error e => Except.error e
  | .ok a => Except.ok (saturating_mul_u32 a 360 / ANGLE_MAX % 2 ^ 16)

/-- `magnitude()`: read of the CORDIC magnitude register. -/
def magnitude (d : Device) : Except (Error Unit) Nat := devRead d Register.Mag

/-- `diagnostics()`: read of the DIAAGC register; the result is interpreted
through the `DiagnosticsAgcRegister` accessors. -/
def diagnostics (d : Device) : Except (Error Unit) Nat :=
  devRead d Register.DiaAgc

/-- `clear_error_flag()`: read of the ERRFL register. -/
def clear_error_flag (d : Device) : Except (Error Unit) Nat :=
  devRead d Register.ErrFl

/-- `zero_position()`: compose the 8-bit MSB and 6-bit LSB halves. -/
def zero_position (d : Device) : Except (Error Unit) Nat :=
  match devRead d Register.ZPosM with
  | .error e => Except.error e
  | .ok msb =>
    match devRead d Register.ZPosL with
    | .error e => Except.error e
    | .ok lsb =>
      Except.ok ((ZeroPositionMsbRegister.zposm msb <<< 6) |||
        ZeroPositionLsbRegister.zposl lsb)

/-- `set_zero_position(value)`: two chained read-modify-writes; `as u8` casts
are modelled by `% 256`. -/
def set_zero_position (d : Device) (value : Nat) : Except (Error Unit) Device :=
  let lsb := value &&& 0b111111
  let msb := value >>> 6
  match modify_register d Register.ZPosL
      (fun v => ZeroPositionLsbRegister.set_zposl v (lsb % 256)) with
  | .error e => Except.error e
  | .ok d1 =>
    match modify_register d1 Register.ZPosM
        (fun v => ZeroPositionMsbRegister.set_zposm v (msb % 256)) with
    | .error e => Except.error e
    | .ok d2 => Except.ok d2

end As5047d

/-! ## Helper lemmas -/

namespace As5047d

lemma countOnesAux_zero : ∀ fuel, countOnesAux fuel 0 = 0
  | 0 => rfl
  | fuel + 1 => by simp [countOnesAux, countOnesAux_zero fuel]

lemma countOnesAux_add_fuel : ∀ f g x : Nat, x < 2 ^ f →
    countOnesAux (f + g) x = countOnesAux f x := by
  intro f
  induction f with
  | zero =>
    intro g x hx
    have hx0 : x = 0 := by simpa using hx
    subst hx0
    simp [countOnesAux_zero, countOnesAux]
  | succ f ih =>
    intro g x hx
    have hp : (2 : Nat) ^ (f + 1) = 2 * 2 ^ f := by rw [pow_succ]; ring
    have hdiv : x / 2 < 2 ^ f := by omega
    have hidx : f + 1 + g = (f + g) + 1 := by omega
    rw [hidx]
    simp only [countOnesAux]
    rw [ih g (x / 2) hdiv]

lemma countOnesAux_two_pow_add : ∀ f x : Nat, x < 2 ^ f →
    countOnesAux (f + 1) (2 ^ f + x) = 1 + countOnesAux f x := by
  intro f
  induction f with
  | zero =>
    intro x hx
    have hx0 : x = 0 := by simpa using hx
    subst hx0
    rfl
  | succ f ih =>
    intro x hx
    have hp : (2 : Nat) ^ (f + 1) = 2 * 2 ^ f := by rw [pow_succ]; ring
    have e1 : (2 ^ (f + 1) + x) % 2 = x % 2 := by omega
    have e2 : (2 ^ (f + 1) + x) / 2 = 2 ^ f + x / 2 := by omega
    have hdiv : x / 2 < 2 ^ f := by omega
    have lhs : countOnesAux (f + 1 + 1) (2 ^ (f + 1) + x) =
        (2 ^ (f + 1) + x) % 2 + countOnesAux (f + 1) ((2 ^ (f + 1) + x) / 2) := rfl
    have rhs : countOnesAux (f + 1) x = x % 2 + countOnesAux f (x / 2) := rfl
    rw [lhs, e1, e2, ih (x / 2) hdiv, rhs]
    omega

lemma countOnes_two_pow_add15 (x : Nat) (hx : x < 2 ^ 15) :
    countOnes (2 ^ 15 + x) = 1 + countOnes x := by
  unfold countOnes
  have h1 : countOnesAux 16 (2 ^ 15 + x) = 1 + countOnesAux 15 x :=
    countOnesAux_two_pow_add 15 x hx
  have h2 : countOnesAux 16 x = countOnesAux 15 x := countOnesAux_add_fuel 15 1 x hx
  rw [h1, h2]

lemma testBit_mul_two_pow_add (a k b i : Nat) (hb : b < 2 ^ k) :
    (a * 2 ^ k + b).testBit i = if i < k then b.testBit i else a.testBit (i - k) := by
  rcases lt_or_ge i k with h | h
  · rw [if_pos h, Nat.testBit_to_div_mod, Nat.testBit_to_div_mod]
    congr 1
    have hk : (2 : Nat) ^ k = 2 ^ (k - i) * 2 ^ i := by
      rw [← pow_add]
      congr 1
      omega
    have h2 : (a * 2 ^ k + b) / 2 ^ i = b / 2 ^ i + a * 2 ^ (k - i) := by
      rw [hk, ← mul_assoc, Nat.add_comm,
        Nat.add_mul_div_right _ _ (Nat.pos_pow_of_pos i (by norm_num))]
    have hsplit : (2 : Nat) ^ (k - i) = 2 * 2 ^ (k - i - 1) := by
      rw [← pow_succ']
      congr 1
      omega
    have hev : a * 2 ^ (k - i) = 2 * (a * 2 ^ (k - i - 1)) := by rw [hsplit]; ring
    rw [h2, hev, Nat.mul_comm 2 (a * 2 ^ (k - i - 1)),
      Nat.add_mul_mod_self_right]
  · rw [if_neg (Nat.not_lt.mpr h), Nat.testBit_to_div_mod, Nat.testBit_to_div_mod]
    congr 1
    have hi : (2 : Nat) ^ i = 2 ^ k * 2 ^ (i - k) := by
      rw [← pow_add]
      congr 1
      omega
    have h2 : (a * 2 ^ k + b) / 2 ^ k = a := by
      rw [Nat.add_comm, Nat.add_mul_div_right _ _ (Nat.pos_pow_of_pos k (by norm_num)),
        Nat.div_eq_of_lt hb, Nat.zero_add]
    rw [hi, ← Nat.div_div_eq_div_mul, h2]

lemma mul_two_pow_lor_eq_add (a k b : Nat) (hb : b < 2 ^ k) :
    a * 2 ^ k ||| b = a * 2 ^ k + b := by
  apply Nat.eq_of_testBit_eq
  intro i
  rw [Nat.testBit_lor]
  have hL : (a * 2 ^ k).testBit i = if i < k then false else a.testBit (i - k) := by
    have h := testBit_mul_two_pow_add a k 0 i (Nat.pos_pow_of_pos k (by norm_num))
    simpa using h
  have hR := testBit_mul_two_pow_add a k b i hb
  rw [hL, hR]
  rcases lt_or_ge i k with h | h
  · simp [h]
  · have hbf : b.testBit i = false :=
      Nat.testBit_eq_false_of_lt
        (lt_of_lt_of_le hb (Nat.pow_le_pow_right (by norm_num) h))
    simp [Nat.not_lt.mpr h, hbf]

lemma two_pow_lor_eq_add (k b : Nat) (hb : b < 2 ^ k) : 2 ^ k ||| b = 2 ^ k + b := by
  have h := mul_two_pow_lor_eq_add 1 k b hb
  simpa using h

lemma land_7FFF (x : Nat) : x &&& 0x7FFF = x % 2 ^ 15 := by
  rw [show (0x7FFF : Nat) = 2 ^ 15 - 1 by norm_num, Nat.and_pow_two_sub_one_eq_mod]

lemma land_3FFF (x : Nat) : x &&& 0x3FFF = x % 2 ^ 14 := by
  rw [show (0x3FFF : Nat) = 2 ^ 14 - 1 by norm_num, Nat.and_pow_two_sub_one_eq_mod]

lemma land_FF (x : Nat) : x &&& 0xFF = x % 2 ^ 8 := by
  rw [show (0xFF : Nat) = 2 ^ 8 - 1 by norm_num, Nat.and_pow_two_sub_one_eq_mod]

lemma land_3F (x : Nat) : x &&& 0x3F = x % 2 ^ 6 := by
  rw [show (0x3F : Nat) = 2 ^ 6 - 1 by norm_num, Nat.and_pow_two_sub_one_eq_mod]

lemma lor_land_distrib (a b c : Nat) : (a ||| b) &&& c = (a &&& c) ||| (b &&& c) := by
  apply Nat.eq_of_testBit_eq
  intro i
  simp only [Nat.testBit_land, Nat.testBit_lor]
  cases a.testBit i <;> cases b.testBit i <;> cases c.testBit i <;> rfl

lemma land_ERROR_FLAG (x : Nat) : x &&& ERROR_FLAG ≠ 0 ↔ x.testBit 14 = true := by
  rw [show ERROR_FLAG = 2 ^ 14 by norm_num [ERROR_FLAG], Nat.and_two_pow]
  cases h : x.testBit 14 <;> simp [h]

lemma from_to_be_bytes (f : Nat) (hf : f < 2 ^ 16) :
    from_be_bytes (to_be_bytes f) = f := by
  simp only [from_be_bytes, to_be_bytes]
  have h16 : (2 : Nat) ^ 16 = 65536 := by norm_num
  omega

end As5047d

namespace As5047d

lemma addr_le (r : Register) : r.addr ≤ 0x3FFF := by
  cases r <;> simp [Register.addr]

lemma calculate_parity_eq (w : Nat) (hw : w < 2 ^ 15) :
    calculate_parity w = (countOnes w % 2 == 1) := by
  unfold calculate_parity
  rw [land_7FFF, Nat.mod_eq_of_lt hw]

lemma with_parity_eq (w : Nat) (hw : w < 2 ^ 15) :
    with_parity w = if countOnes w % 2 = 1 then 2 ^ 15 + w else w := by
  unfold with_parity
  rw [calculate_parity_eq w hw]
  by_cases hodd : countOnes w % 2 = 1
  · rw [if_pos (by simpa using hodd), if_pos hodd,
      show PARITY_BIT = 2 ^ 15 by norm_num [PARITY_BIT], two_pow_lor_eq_add 15 w hw]
  · rw [if_neg (by simpa using hodd), if_neg hodd]

lemma with_parity_lt (w : Nat) (hw : w < 2 ^ 15) : with_parity w < 2 ^ 16 := by
  have h15 : (2 : Nat) ^ 15 = 32768 := by norm_num
  have h16 : (2 : Nat) ^ 16 = 65536 := by norm_num
  rw [with_parity_eq w hw]
  split <;> omega

lemma process_response_spec {E : Type} (frame : Nat) :
    process_response (E := E) frame =
      if countOnes frame % 2 = 1 then Except.error Error.ParityError
      else if frame.testBit 14 then Except.error Error.SensorError
      else Except.ok (frame % 2 ^ 14) := by
  have hmask : frame &&& DATA_MASK = frame % 2 ^ 14 := by
    simp only [DATA_MASK]
    exact land_3FFF frame
  by_cases hp : countOnes frame % 2 = 1
  · have hv : verify_parity frame = false := by simp [verify_parity, hp]
    simp [process_response, hv, hp]
  · have hz : countOnes frame % 2 = 0 := by omega
    have hv : verify_parity frame = true := by simp [verify_parity, hz]
    rw [if_neg hp]
    by_cases ht : frame.testBit 14 = true
    · have hf : frame &&& ERROR_FLAG ≠ 0 := (land_ERROR_FLAG frame).mpr ht
      simp [process_response, hv, hf, ht]
    · have hne : ¬frame &&& ERROR_FLAG ≠ 0 := fun hcon => ht ((land_ERROR_FLAG frame).mp hcon)
      simp only [Bool.not_eq_true] at ht
      simp [process_response, hv, hne, ht, hmask]

lemma process_with_parity {E : Type} (p : Nat) (hp : p ≤ 0x3FFF) :
    process_response (E := E) (with_parity p) = Except.ok p := by
  have h14 : p < 2 ^ 14 := by
    have : (2 : Nat) ^ 14 = 16384 := by norm_num
    omega
  have h15 : p < 2 ^ 15 := by
    have : (2 : Nat) ^ 15 = 32768 := by norm_num
    omega
  have htb : p.testBit 14 = false := Nat.testBit_eq_false_of_lt h14
  rw [with_parity_eq p h15]
  by_cases hodd : countOnes p % 2 = 1
  · rw [if_pos hodd, process_response_spec]
    have hc : countOnes (2 ^ 15 + p) = 1 + countOnes p := countOnes_two_pow_add15 p h15
    have htb2 : (2 ^ 15 + p).testBit 14 = p.testBit 14 := by
      have h := testBit_mul_two_pow_add 1 15 p 14 h15
      simpa using h
    have hmod : (2 ^ 15 + p) % 2 ^ 14 = p := by
      have e15 : (2 : Nat) ^ 15 = 32768 := by norm_num
      have e14 : (2 : Nat) ^ 14 = 16384 := by norm_num
      omega
    rw [if_neg (by omega : ¬countOnes (2 ^ 15 + p) % 2 = 1), htb2, htb, if_neg (by simp), hmod]
  · rw [if_neg hodd, process_response_spec, if_neg hodd, htb, if_neg (by simp),
      Nat.mod_eq_of_lt h14]
lemma read_register_resp_ok {E : Type} (resp : Nat → SpiOutcome E) (reg : Register)
    (rx0 rx1 : Nat × Nat) (h0 : resp 0 = SpiOutcome.ok rx0) (h1 : resp 1 = SpiOutcome.ok rx1) :
    read_register resp reg =
      ([to_be_bytes (with_parity (READ_BIT ||| reg.addr)), to_be_bytes NOP_COMMAND],
        process_response (from_be_bytes rx1)) := by
  simp only [read_register, h0, h1]

lemma write_register_resp_ok {E : Type} (resp : Nat → SpiOutcome E) (reg : Register)
    (data : Nat) (rx0 rx1 rx2 : Nat × Nat) (h0 : resp 0 = SpiOutcome.ok rx0)
    (h1 : resp 1 = SpiOutcome.ok rx1) (h2 : resp 2 = SpiOutcome.ok rx2) :
    write_register resp reg data =
      ([to_be_bytes (with_parity reg.addr), to_be_bytes (with_parity (data &&& DATA_MASK)),
        to_be_bytes NOP_COMMAND],
        (process_response (from_be_bytes rx2)).map (fun _ => ())) := by
  simp only [write_register, h0, h1, h2]

lemma devRead_eq (d : Device) (r : Register) :
    devRead d r = Except.ok (d.regs r &&& DATA_MASK) := by
  have hmask : d.regs r &&& DATA_MASK ≤ 0x3FFF := by
    simp only [DATA_MASK]
    exact Nat.and_le_right
  have h15 : d.regs r &&& DATA_MASK < 2 ^ 15 := by
    have : (2 : Nat) ^ 15 = 32768 := by norm_num
    omega
  have hstep : devRead d r = process_response
      (from_be_bytes (to_be_bytes (with_parity (d.regs r &&& DATA_MASK)))) := by
    unfold devRead
    rw [read_register_resp_ok (d.readOracle r) r _ _ rfl rfl]
  rw [hstep, from_to_be_bytes _ (with_parity_lt _ h15), process_with_parity _ hmask]

lemma devWrite_eq (d : Device) (r : Register) (data : Nat) :
    devWrite d r data = Except.ok (d.store r data) := by
  have hmask : data &&& DATA_MASK ≤ 0x3FFF := by
    simp only [DATA_MASK]
    exact Nat.and_le_right
  have h15 : data &&& DATA_MASK < 2 ^ 15 := by
    have : (2 : Nat) ^ 15 = 32768 := by norm_num
    omega
  have hstep : (write_register (E := Unit) (d.writeOracle data) r data).2 =
      (process_response (E := Unit)
        (from_be_bytes (to_be_bytes (with_parity (data &&& DATA_MASK))))).map
        (fun _ => ()) := by
    rw [write_register_resp_ok (d.writeOracle data) r data _ _ _ rfl rfl rfl]
  have h : (write_register (E := Unit) (d.writeOracle data) r data).2 = Except.ok () := by
    rw [hstep, from_to_be_bytes _ (with_parity_lt _ h15), process_with_parity _ hmask]
    rfl
  unfold devWrite
  rw [h]

lemma modify_register_eq (d : Device) (r : Register) (f : Nat → Nat) :
    modify_register d r f = Except.ok (d.store r (f (d.regs r &&& DATA_MASK))) := by
  unfold modify_register
  rw [devRead_eq]
  show devWrite d r (f (d.regs r &&& DATA_MASK)) =
    Except.ok (d.store r (f (d.regs r &&& DATA_MASK)))
  rw [devWrite_eq]

lemma store_regs_ne (d : Device) (r s : Register) (x : Nat) (h : s ≠ r) :
    (d.store r x).regs s = d.regs s := by
  simp [Device.store, h]

lemma store_regs_self (d : Device) (r : Register) (x : Nat) :
    (d.store r x).regs r = x &&& DATA_MASK := by
  simp [Device.store]

lemma set_zero_position_eq (d : Device) (v : Nat) :
    set_zero_position d v = Except.ok
      ((d.store Register.ZPosL
          (ZeroPositionLsbRegister.set_zposl (d.regs Register.ZPosL &&& DATA_MASK)
            ((v &&& 0b111111) % 256))).store Register.ZPosM
        (ZeroPositionMsbRegister.set_zposm (d.regs Register.ZPosM &&& DATA_MASK)
          ((v >>> 6) % 256))) := by
  have h1 := modify_register_eq d Register.ZPosL
    (fun w => ZeroPositionLsbRegister.set_zposl w ((v &&& 0b111111) % 256))
  have h2 := modify_register_eq
    (d.store Register.ZPosL
      (ZeroPositionLsbRegister.set_zposl (d.regs Register.ZPosL &&& DATA_MASK)
        ((v &&& 0b111111) % 256)))
    Register.ZPosM
    (fun w => ZeroPositionMsbRegister.set_zposm w ((v >>> 6) % 256))
  unfold set_zero_position
  dsimp only []
  conv_lhs => rw [h1]
  dsimp only []
  conv_lhs => rw [h2]
  dsimp only []
  rw [store_regs_ne d Register.ZPosL Register.ZPosM _ (by decide)]

lemma zero_position_eq (d : Device) :
    zero_position d = Except.ok
      ((ZeroPositionMsbRegister.zposm (d.regs Register.ZPosM &&& DATA_MASK) <<< 6) |||
        ZeroPositionLsbRegister.zposl (d.regs Register.ZPosL &&& DATA_MASK)) := by
  unfold zero_position
  conv_lhs => rw [devRead_eq d Register.ZPosM]
  dsimp only []
  conv_lhs => rw [devRead_eq d Register.ZPosL]

lemma angle_degrees_eq (d : Device) :
    angle_degrees d = Except.ok
      (saturating_mul_u32 (d.regs Register.AngleCom &&& DATA_MASK) 360 /
        ANGLE_MAX % 2 ^ 16) := by
  unfold angle_degrees angle
  conv_lhs => rw [devRead_eq d Register.AngleCom]

lemma verify_with_parity (u : Nat) (hu : u < 2 ^ 15) :
    verify_parity (with_parity u) = true := by
  rw [with_parity_eq u hu]
  by_cases hodd : countOnes u % 2 = 1
  · rw [if_pos hodd]
    unfold verify_parity
    rw [countOnes_two_pow_add15 u hu]
    simp only [beq_iff_eq]
    omega
  · rw [if_neg hodd]
    unfold verify_parity
    simp only [beq_iff_eq]
    omega

/-! ## Claim theorems -/

/-- C8: `calculate_parity` returns true iff the population count of the low 15
bits of the word (`word &&& 0x7FFF`, i.e. `word % 2^15`) is odd; the value of
bit 15 of the input never affects the result (clearing it with `% 2^15` or
setting it with `2^15 |||` leaves the result unchanged). -/
theorem c8_calculate_parity_spec (w : Nat) :
    (calculate_parity w = true ↔ countOnes (w % 2 ^ 15) % 2 = 1)
    ∧ calculate_parity (w % 2 ^ 15) = calculate_parity w
    ∧ calculate_parity (2 ^ 15 ||| w) = calculate_parity w := by
  have hself : w % 2 ^ 15 % 2 ^ 15 = w % 2 ^ 15 :=
    Nat.mod_eq_of_lt (Nat.mod_lt w (by norm_num))
  have hlor : (2 ^ 15 ||| w) % 2 ^ 15 = w % 2 ^ 15 := by
    apply Nat.eq_of_testBit_eq
    intro i
    rw [Nat.testBit_mod_two_pow, Nat.testBit_mod_two_pow, Nat.testBit_lor]
    by_cases h : i < 15
    · have ht : Nat.testBit 32768 i = false := by
        have h2 := Nat.testBit_two_pow_of_ne (show 15 ≠ i by omega)
        simpa using h2
      simp [h, ht]
    · simp [h]
  refine ⟨?_, ?_, ?_⟩
  · unfold calculate_parity
    rw [land_7FFF]
    simp only [beq_iff_eq]
  · unfold calculate_parity
    rw [land_7FFF, land_7FFF, hself]
  · unfold calculate_parity
    rw [land_7FFF, land_7FFF, hlor]

/-- C6: for every raw diagnostics value, `is_valid` is true iff there is no
CORDIC overflow and the field strength is ok, where field-strength-ok means
that neither the field-too-strong flag nor the field-too-weak flag is set;
this holds for both decoder types (`DiagnosticsAgcRegister` of src/register.rs
and `Diagnostics` of src/diagnostics.rs). -/
theorem c6_is_valid_spec (raw : Nat) :
    (DiagnosticsAgcRegister.is_valid raw = true ↔
      DiagnosticsAgcRegister.cof raw = false ∧
        DiagnosticsAgcRegister.magh raw = false ∧
        DiagnosticsAgcRegister.magl raw = false)
    ∧ (DiagnosticsAgcRegister.magnetic_field_ok raw = true ↔
        DiagnosticsAgcRegister.magh raw = false ∧
          DiagnosticsAgcRegister.magl raw = false)
    ∧ (Diagnostics.is_valid raw = true ↔
        Diagnostics.cordic_overflow raw = false ∧
          Diagnostics.comp_high raw = false ∧ Diagnostics.comp_low raw = false)
    ∧ (Diagnostics.magnetic_field_ok raw = true ↔
        Diagnostics.comp_high raw = false ∧ Diagnostics.comp_low raw = false) := by
  refine ⟨?_, ?_, ?_, ?_⟩ <;>
    simp [DiagnosticsAgcRegister.is_valid, DiagnosticsAgcRegister.magnetic_field_ok,
      Diagnostics.is_valid, Diagnostics.magnetic_field_ok, and_assoc]

/-- C5 counterexample: the facade's `diagnostics()` wraps the raw register
value in `DiagnosticsAgcRegister` (src/register.rs layout), for which raw
0x0480 has the field-too-strong flag MAGH (bit 10) set and the
offset-compensation flag LF (bit 8) clear, so its `is_valid` is false —
contradicting the claim that `offset_comp_finished` and `is_valid` hold for
the facade-produced diagnostics value at 0x0480. -/
theorem c5_facade_0x0480_counterexample :
    diagnostics ⟨fun _ => 0x0480⟩ = Except.ok 0x0480
    ∧ DiagnosticsAgcRegister.lf 0x0480 = false
    ∧ DiagnosticsAgcRegister.is_valid 0x0480 = false := by decide

/-- C5 amended: at raw 0x0480 the claimed accessor values hold for the
`Diagnostics` decoder of src/diagnostics.rs (offset-comp finished, AGC 128,
valid); the facade's `diagnostics()` instead produces the raw value decoded by
`DiagnosticsAgcRegister`, whose AGC field is 128 but whose offset-compensation
flag (LF, bit 8) is false and whose `is_valid` is false (MAGH, bit 10, set). -/
theorem c5_diagnostics_0x0480_amended :
    Diagnostics.offset_comp_finished 0x0480 = true
    ∧ Diagnostics.agc_value 0x0480 = 128
    ∧ Diagnostics.is_valid 0x0480 = true
    ∧ diagnostics ⟨fun _ => 0x0480⟩ = Except.ok 0x0480
    ∧ DiagnosticsAgcRegister.agc 0x0480 = 128
    ∧ DiagnosticsAgcRegister.lf 0x0480 = false
    ∧ DiagnosticsAgcRegister.is_valid 0x0480 = false := by decide

/-- C10: every 16-bit word with bit 15 clear, framed by the driver's parity
step (set bit 15 iff `calculate_parity` is true), has an even 16-bit
population count, i.e. `verify_parity` accepts it; in particular every read
command word, every write command word and every masked data frame the driver
transmits passes the even-parity check the driver applies to received
frames. -/
theorem c10_framed_words_verify (w : Nat) (hw : w < 2 ^ 15) :
    verify_parity (with_parity w) = true
    ∧ (∀ r : Register, verify_parity (with_parity (READ_BIT ||| r.addr)) = true
        ∧ verify_parity (with_parity r.addr) = true)
    ∧ ∀ data : Nat, verify_parity (with_parity (data &&& DATA_MASK)) = true := by
  have h15 : (2 : Nat) ^ 15 = 32768 := by norm_num
  have haddr : ∀ r : Register, r.addr < 2 ^ 15 := by
    intro r
    have h := addr_le r
    omega
  refine ⟨verify_with_parity w hw,
    fun r => ⟨?_, verify_with_parity _ (haddr r)⟩, fun data => ?_⟩
  · have hrb : READ_BIT < 2 ^ 15 := by norm_num [READ_BIT]
    exact verify_with_parity _ (Nat.or_lt_two_pow hrb (haddr r))
  · have h1 : data &&& DATA_MASK ≤ 0x3FFF := by
      simp only [DATA_MASK]
      exact Nat.and_le_right
    exact verify_with_parity _ (by omega)

/-- C10 witness: the framing property evaluated at the concrete word 0x2AAA,
at the read and write command words for the angle register, and at a concrete
masked data frame. -/
theorem c10_framed_words_verify_witness :
    verify_parity (with_parity 0x2AAA) = true
    ∧ (verify_parity (with_parity (READ_BIT ||| Register.AngleCom.addr)) = true
        ∧ verify_parity (with_parity Register.AngleCom.addr) = true)
    ∧ verify_parity (with_parity (0xABCD &&& DATA_MASK)) = true := by
  have h := c10_framed_words_verify 0x2AAA (by norm_num)
  exact ⟨h.1, h.2.1 Register.AngleCom, h.2.2 0xABCD⟩


/-- C1: for every 16-bit response frame (big-endian bytes `b1`, `b2`) received
in the second (NOP) transaction of a register read, the read returns
ParityError if the frame's full 16-bit population count is odd, otherwise
SensorError if bit 14 of the frame is set, otherwise the payload
`frame % 2^14` (= `frame &&& 0x3FFF`), a value in [0, 16383]; in particular
response bytes (0xC0, 0x01), frame 0xC001, yield ParityError. -/
theorem c1_read_response_validation {E : Type} (r0 : Nat × Nat) (b1 b2 : Nat)
    (reg : Register) (_hb1 : b1 < 256) (_hb2 : b2 < 256) :
    ((read_register (E := E)
        (fun i => if i = 0 then SpiOutcome.ok r0 else SpiOutcome.ok (b1, b2)) reg).2 =
      if countOnes (b1 * 256 + b2) % 2 = 1 then Except.error Error.ParityError
      else if (b1 * 256 + b2).testBit 14 then Except.error Error.SensorError
      else Except.ok ((b1 * 256 + b2) % 2 ^ 14))
    ∧ (b1 * 256 + b2) % 2 ^ 14 ≤ 16383
    ∧ (read_register (E := E) (fun _ => SpiOutcome.ok (0xC0, 0x01)) reg).2 =
      Except.error Error.ParityError := by
  refine ⟨?_, ?_, ?_⟩
  · have h0 : (fun i => if i = 0 then SpiOutcome.ok (E := E) r0
        else SpiOutcome.ok (b1, b2)) 0 = SpiOutcome.ok r0 := if_pos rfl
    have h1 : (fun i => if i = 0 then SpiOutcome.ok (E := E) r0
        else SpiOutcome.ok (b1, b2)) 1 = SpiOutcome.ok (b1, b2) := if_neg (by decide)
    have hr := read_register_resp_ok
      (fun i => if i = 0 then SpiOutcome.ok (E := E) r0 else SpiOutcome.ok (b1, b2))
      reg r0 (b1, b2) h0 h1
    have e2 : (read_register (E := E)
        (fun i => if i = 0 then SpiOutcome.ok r0 else SpiOutcome.ok (b1, b2)) reg).2 =
        process_response (from_be_bytes (b1, b2)) := by rw [hr]
    rw [e2, process_response_spec]
    dsimp only [from_be_bytes]
  · have h14 : (2 : Nat) ^ 14 = 16384 := by norm_num
    have h := Nat.mod_lt (b1 * 256 + b2) (show 0 < 2 ^ 14 by norm_num)
    omega
  · have hr := read_register_resp_ok (E := E)
      (fun _ => SpiOutcome.ok (0xC0, 0x01)) reg (0xC0, 0x01) (0xC0, 0x01) rfl rfl
    have e2 : (read_register (E := E) (fun _ => SpiOutcome.ok (0xC0, 0x01)) reg).2 =
        process_response (from_be_bytes (0xC0, 0x01)) := by rw [hr]
    rw [e2, process_response_spec,
      if_pos (show countOnes (from_be_bytes (0xC0, 0x01)) % 2 = 1 by decide)]

/-- C1 witness: the validation theorem evaluated at the concrete response
bytes (0x30, 0x03) — frame 0x3003, even population count, error flag clear —
during an angle-register read. -/
theorem c1_read_response_validation_witness :
    ((read_register (E := Unit)
        (fun i => if i = 0 then SpiOutcome.ok (0, 0) else SpiOutcome.ok (0x30, 0x03))
        Register.AngleCom).2 =
      if countOnes (0x30 * 256 + 0x03) % 2 = 1 then Except.error Error.ParityError
      else if (0x30 * 256 + 0x03).testBit 14 then Except.error Error.SensorError
      else Except.ok ((0x30 * 256 + 0x03) % 2 ^ 14))
    ∧ (0x30 * 256 + 0x03) % 2 ^ 14 ≤ 16383
    ∧ (read_register (E := Unit) (fun _ => SpiOutcome.ok (0xC0, 0x01))
        Register.AngleCom).2 = Except.error Error.ParityError :=
  c1_read_response_validation (0, 0) 0x30 0x03 Register.AngleCom (by decide) (by decide)

/-- C2: for every register and every data value, `write_register` transmits
exactly three big-endian frames: the command word — the register's 14-bit
address with the read bit clear and bit 15 set iff the population count of its
low 15 bits is odd —, the data frame — `data % 2^14` (= `data &&& 0x3FFF`)
with bit 15 set iff its low-15-bit population count is odd —, and the NOP word
0; the first two responses are ignored and the third is validated exactly as
in a read (ParityError on odd 16-bit population count, then SensorError on bit
14), its payload discarded, `Ok ()` returned on success. -/
theorem c2_write_register_spec {E : Type} (reg : Register) (data : Nat)
    (resp : Nat → SpiOutcome E) (r0 r1 : Nat × Nat) (b1 b2 : Nat)
    (h0 : resp 0 = SpiOutcome.ok r0) (h1 : resp 1 = SpiOutcome.ok r1)
    (h2 : resp 2 = SpiOutcome.ok (b1, b2)) :
    (write_register resp reg data).1 =
      [to_be_bytes (if countOnes reg.addr % 2 = 1 then 2 ^ 15 + reg.addr else reg.addr),
        to_be_bytes (if countOnes (data % 2 ^ 14) % 2 = 1
          then 2 ^ 15 + data % 2 ^ 14 else data % 2 ^ 14),
        to_be_bytes 0]
    ∧ (write_register resp reg data).2 =
      (if countOnes (b1 * 256 + b2) % 2 = 1 then Except.error Error.ParityError
        else if (b1 * 256 + b2).testBit 14 then Except.error Error.SensorError
        else Except.ok ()) := by
  have h15 : (2 : Nat) ^ 15 = 32768 := by norm_num
  have haddr15 : reg.addr < 2 ^ 15 := by
    have h := addr_le reg
    omega
  have hd14 : data &&& DATA_MASK = data % 2 ^ 14 := by
    simp only [DATA_MASK]
    exact land_3FFF data
  have hd15 : data % 2 ^ 14 < 2 ^ 15 := by
    have h := Nat.mod_lt data (show 0 < 2 ^ 14 by norm_num)
    have h14 : (2 : Nat) ^ 14 = 16384 := by norm_num
    omega
  have hr := write_register_resp_ok resp reg data r0 r1 (b1, b2) h0 h1 h2
  constructor
  · have e1 : (write_register resp reg data).1 =
        [to_be_bytes (with_parity reg.addr),
          to_be_bytes (with_parity (data &&& DATA_MASK)), to_be_bytes NOP_COMMAND] := by
      rw [hr]
    rw [e1, with_parity_eq reg.addr haddr15, hd14, with_parity_eq (data % 2 ^ 14) hd15]
    rfl
  · have e2 : (write_register resp reg data).2 =
        (process_response (from_be_bytes (b1, b2))).map (fun _ => ()) := by
      rw [hr]
    rw [e2, process_response_spec]
    dsimp only [from_be_bytes]
    split_ifs <;> rfl

/-- C2 witness: the write protocol evaluated for the ZPOSL register with data
0x2AAA against a bus whose verification response is the even-parity frame
0x8001. -/
theorem c2_write_register_spec_witness :
    (write_register (E := Unit) (fun _ => SpiOutcome.ok (0x80, 0x01))
        Register.ZPosL 0x2AAA).1 =
      [to_be_bytes (if countOnes Register.ZPosL.addr % 2 = 1
          then 2 ^ 15 + Register.ZPosL.addr else Register.ZPosL.addr),
        to_be_bytes (if countOnes (0x2AAA % 2 ^ 14) % 2 = 1
          then 2 ^ 15 + 0x2AAA % 2 ^ 14 else 0x2AAA % 2 ^ 14),
        to_be_bytes 0]
    ∧ (write_register (E := Unit) (fun _ => SpiOutcome.ok (0x80, 0x01))
        Register.ZPosL 0x2AAA).2 =
      (if countOnes (0x80 * 256 + 0x01) % 2 = 1 then Except.error Error.ParityError
        else if (0x80 * 256 + 0x01).testBit 14 then Except.error Error.SensorError
        else Except.ok ()) :=
  c2_write_register_spec Register.ZPosL 0x2AAA
    (fun _ => SpiOutcome.ok (0x80, 0x01)) (0x80, 0x01) (0x80, 0x01) 0x80 0x01
    rfl rfl rfl

/-- C7: if any SPI transfer of a 2-transaction read or 3-transaction write
fails with transport error `e`, the whole operation returns
`Communication e` with the error value unmodified, and the list of transmitted
frames stops at the failing transaction (no further transfers are issued),
for every position of the failing transaction. -/
theorem c7_comm_error_propagation {E : Type} (resp : Nat → SpiOutcome E)
    (reg : Register) (data : Nat) (e : E) (r0 r1 : Nat × Nat) :
    (resp 0 = SpiOutcome.err e →
      (read_register resp reg).1.length = 1
      ∧ (read_register resp reg).2 = Except.error (Error.Communication e))
    ∧ (resp 0 = SpiOutcome.ok r0 → resp 1 = SpiOutcome.err e →
      (read_register resp reg).1.length = 2
      ∧ (read_register resp reg).2 = Except.error (Error.Communication e))
    ∧ (resp 0 = SpiOutcome.err e →
      (write_register resp reg data).1.length = 1
      ∧ (write_register resp reg data).2 = Except.error (Error.Communication e))
    ∧ (resp 0 = SpiOutcome.ok r0 → resp 1 = SpiOutcome.err e →
      (write_register resp reg data).1.length = 2
      ∧ (write_register resp reg data).2 = Except.error (Error.Communication e))
    ∧ (resp 0 = SpiOutcome.ok r0 → resp 1 = SpiOutcome.ok r1 →
        resp 2 = SpiOutcome.err e →
      (write_register resp reg data).1.length = 3
      ∧ (write_register resp reg data).2 = Except.error (Error.Communication e)) := by
  refine ⟨fun h0 => ?_, fun h0 h1 => ?_, fun h0 => ?_, fun h0 h1 => ?_,
    fun h0 h1 h2 => ?_⟩
  · simp [read_register, h0]
  · simp [read_register, h0, h1]
  · simp [write_register, h0]
  · simp [write_register, h0, h1]
  · simp [write_register, h0, h1, h2]

/-- C7 witness: the propagation theorem applied to buses failing at each of
the five possible transaction positions, with the distinguishable transport
error value 7. -/
theorem c7_comm_error_propagation_witness :
    ((read_register (E := Nat) (fun _ => SpiOutcome.err 7) Register.AngleCom).1.length = 1
      ∧ (read_register (E := Nat) (fun _ => SpiOutcome.err 7) Register.AngleCom).2 =
        Except.error (Error.Communication 7))
    ∧ ((read_register (E := Nat)
          (fun i => if i = 0 then SpiOutcome.ok (0, 0) else SpiOutcome.err 7)
          Register.AngleCom).1.length = 2
      ∧ (read_register (E := Nat)
          (fun i => if i = 0 then SpiOutcome.ok (0, 0) else SpiOutcome.err 7)
          Register.AngleCom).2 = Except.error (Error.Communication 7))
    ∧ ((write_register (E := Nat) (fun _ => SpiOutcome.err 7)
          Register.ZPosL 5).1.length = 1
      ∧ (write_register (E := Nat) (fun _ => SpiOutcome.err 7)
          Register.ZPosL 5).2 = Except.error (Error.Communication 7))
    ∧ ((write_register (E := Nat)
          (fun i => if i = 0 then SpiOutcome.ok (0, 0) else SpiOutcome.err 7)
          Register.ZPosL 5).1.length = 2
      ∧ (write_register (E := Nat)
          (fun i => if i = 0 then SpiOutcome.ok (0, 0) else SpiOutcome.err 7)
          Register.ZPosL 5).2 = Except.error (Error.Communication 7))
    ∧ ((write_register (E := Nat)
          (fun i => if i ≤ 1 then SpiOutcome.ok (0, 0) else SpiOutcome.err 7)
          Register.ZPosL 5).1.length = 3
      ∧ (write_register (E := Nat)
          (fun i => if i ≤ 1 then SpiOutcome.ok (0, 0) else SpiOutcome.err 7)
          Register.ZPosL 5).2 = Except.error (Error.Communication 7)) := by
  refine ⟨?_, ?_, ?_, ?_, ?_⟩
  · exact (c7_comm_error_propagation (fun _ => SpiOutcome.err 7) Register.AngleCom 5 7
      (0, 0) (0, 0)).1 rfl
  · exact (c7_comm_error_propagation
      (fun i => if i = 0 then SpiOutcome.ok (0, 0) else SpiOutcome.err 7)
      Register.AngleCom 5 7 (0, 0) (0, 0)).2.1 (if_pos rfl) (if_neg (by decide))
  · exact (c7_comm_error_propagation (fun _ => SpiOutcome.err 7) Register.ZPosL 5 7
      (0, 0) (0, 0)).2.2.1 rfl
  · exact (c7_comm_error_propagation
      (fun i => if i = 0 then SpiOutcome.ok (0, 0) else SpiOutcome.err 7)
      Register.ZPosL 5 7 (0, 0) (0, 0)).2.2.2.1 (if_pos rfl) (if_neg (by decide))
  · exact (c7_comm_error_propagation
      (fun i => if i ≤ 1 then SpiOutcome.ok (0, 0) else SpiOutcome.err 7)
      Register.ZPosL 5 7 (0, 0) (0, 0)).2.2.2.2 (if_pos (by decide))
      (if_pos (by decide)) (if_neg (by decide))

lemma masked_twice (s : Nat) : (s &&& DATA_MASK) &&& DATA_MASK = s &&& DATA_MASK := by
  rw [Nat.land_assoc, (by decide : (DATA_MASK &&& DATA_MASK : Nat) = DATA_MASK)]

lemma set_zposm_low (y x : Nat) :
    ZeroPositionMsbRegister.set_zposm y x &&& 0xFF = x &&& 0xFF := by
  unfold ZeroPositionMsbRegister.set_zposm
  rw [lor_land_distrib, Nat.land_assoc, Nat.land_assoc,
    (by decide : (0xFF00 &&& 0xFF : Nat) = 0), (by decide : (0xFF &&& 0xFF : Nat) = 0xFF),
    Nat.and_zero, Nat.zero_or]

lemma set_zposl_low (y x : Nat) :
    ZeroPositionLsbRegister.set_zposl y x &&& 0x3F = x &&& 0x3F := by
  unfold ZeroPositionLsbRegister.set_zposl
  rw [lor_land_distrib, Nat.land_assoc, Nat.land_assoc,
    (by decide : (0xFFC0 &&& 0x3F : Nat) = 0), (by decide : (0x3F &&& 0x3F : Nat) = 0x3F),
    Nat.and_zero, Nat.zero_or]

lemma zposm_of_masked (s : Nat) :
    ZeroPositionMsbRegister.zposm (s &&& DATA_MASK) = s &&& 0xFF := by
  unfold ZeroPositionMsbRegister.zposm
  rw [Nat.land_assoc, (by decide : (DATA_MASK &&& 0xFF : Nat) = 0xFF)]

lemma zposl_of_masked (s : Nat) :
    ZeroPositionLsbRegister.zposl (s &&& DATA_MASK) = s &&& 0x3F := by
  unfold ZeroPositionLsbRegister.zposl
  rw [Nat.land_assoc, (by decide : (DATA_MASK &&& 0x3F : Nat) = 0x3F)]

lemma set_zposl_testBit_high (y x i : Nat) (h6 : 6 ≤ i) (h16 : i < 16) :
    (ZeroPositionLsbRegister.set_zposl y x).testBit i = y.testBit i := by
  unfold ZeroPositionLsbRegister.set_zposl
  rw [Nat.testBit_lor, Nat.testBit_land, Nat.testBit_land]
  have h3f : Nat.testBit 0x3F i = false := by
    interval_cases i <;> decide
  have hc : Nat.testBit 0xFFC0 i = true := by
    interval_cases i <;> decide
  simp [hc, h3f]

lemma testBit_masked_high (s i : Nat) (h : i < 14) :
    (s &&& DATA_MASK).testBit i = s.testBit i := by
  rw [Nat.testBit_land]
  have hd : Nat.testBit DATA_MASK i = true := by
    interval_cases i <;> decide
  simp [hd]

/-- C3: for every device, `angle_degrees` returns exactly
`floor((a * 360) / ANGLE_MAX)` for the raw 14-bit angle `a` produced by the
angle read (the saturating multiply never saturates and the `u16` truncation
never truncates for 14-bit angles); in particular raw angle 0 gives 0 and raw
angle `ANGLE_MAX - 1` (= 16383) gives 359 (floor, not round). -/
theorem c3_angle_degrees_spec (d : Device) :
    angle_degrees d = Except.map (fun a => a * 360 / ANGLE_MAX) (angle d)
    ∧ angle_degrees ⟨fun _ => 0⟩ = Except.ok 0
    ∧ angle_degrees ⟨fun _ => ANGLE_MAX - 1⟩ = Except.ok 359 := by
  refine ⟨?_, by decide, by decide⟩
  have ha : angle d = Except.ok (d.regs Register.AngleCom &&& DATA_MASK) :=
    devRead_eq d Register.AngleCom
  rw [angle_degrees_eq d, ha]
  dsimp only [Except.map]
  have hA : d.regs Register.AngleCom &&& DATA_MASK ≤ 16383 := by
    have h : d.regs Register.AngleCom &&& DATA_MASK ≤ DATA_MASK := Nat.and_le_right
    have hdm : DATA_MASK = 16383 := by norm_num [DATA_MASK]
    omega
  have hm : ANGLE_MAX = 16384 := by norm_num [ANGLE_MAX]
  have h1 : saturating_mul_u32 (d.regs Register.AngleCom &&& DATA_MASK) 360 =
      (d.regs Register.AngleCom &&& DATA_MASK) * 360 := by
    unfold saturating_mul_u32
    have h32 : (2 : Nat) ^ 32 - 1 = 4294967295 := by norm_num
    omega
  have h2 : (d.regs Register.AngleCom &&& DATA_MASK) * 360 / ANGLE_MAX % 2 ^ 16 =
      (d.regs Register.AngleCom &&& DATA_MASK) * 360 / ANGLE_MAX := by
    have h16 : (2 : Nat) ^ 16 = 65536 := by norm_num
    rw [hm]
    omega
  rw [h1, h2]

/-- C4: for every `v ≤ 16383` and every device state, `set_zero_position v`
succeeds (against the readback device model) and a subsequent
`zero_position` returns `v`; the stored halves are exactly the decomposition
MSB = `v >>> 6` (8 bits) and LSB = `v &&& 0b111111` (6 bits). -/
theorem c4_zero_position_roundtrip (d : Device) (v : Nat) (hv : v ≤ 16383) :
    (set_zero_position d v).bind zero_position = Except.ok v
    ∧ (set_zero_position d v).map
        (fun e => ZeroPositionMsbRegister.zposm (e.regs Register.ZPosM)) =
      Except.ok (v >>> 6)
    ∧ (set_zero_position d v).map
        (fun e => ZeroPositionLsbRegister.zposl (e.regs Register.ZPosL)) =
      Except.ok (v &&& 0b111111) := by
  have h64 : (2 : Nat) ^ 6 = 64 := by norm_num
  have h256 : (2 : Nat) ^ 8 = 256 := by norm_num
  have hshift : v >>> 6 = v / 2 ^ 6 := Nat.shiftRight_eq_div_pow v 6
  have hmsb : (v >>> 6) % 256 &&& 0xFF = v >>> 6 := by
    rw [land_FF, hshift]
    omega
  have hlsb : (v &&& 63) % 256 &&& 0x3F = v &&& 63 := by
    rw [land_3F, land_3F]
    have hx := land_3F v
    omega
  rw [set_zero_position_eq d v]
  refine ⟨?_, ?_, ?_⟩
  · dsimp only [Except.bind]
    rw [zero_position_eq]
    rw [store_regs_self, store_regs_ne _ _ _ _ (by decide), store_regs_self,
      masked_twice, masked_twice, zposm_of_masked, zposl_of_masked,
      set_zposm_low, set_zposl_low, hmsb, hlsb]
    have hl63 : v &&& 63 < 2 ^ 6 := by
      have hx := land_3F v
      omega
    rw [Nat.shiftLeft_eq, mul_two_pow_lor_eq_add _ 6 _ hl63, hshift]
    have hx := land_3F v
    have hfin : v / 2 ^ 6 * 2 ^ 6 + (v &&& 63) = v := by omega
    rw [hfin]
  · dsimp only [Except.map]
    rw [store_regs_self, zposm_of_masked, set_zposm_low, hmsb]
  · dsimp only [Except.map]
    rw [store_regs_ne _ _ _ _ (by decide), store_regs_self, zposl_of_masked,
      set_zposl_low, hlsb]

/-- C4 witness: the round trip evaluated for v = 5000 against a device whose
registers initially all hold 0x1234. -/
theorem c4_zero_position_roundtrip_witness :
    (set_zero_position ⟨fun _ => 0x1234⟩ 5000).bind zero_position = Except.ok 5000
    ∧ (set_zero_position ⟨fun _ => 0x1234⟩ 5000).map
        (fun e => ZeroPositionMsbRegister.zposm (e.regs Register.ZPosM)) =
      Except.ok (5000 >>> 6)
    ∧ (set_zero_position ⟨fun _ => 0x1234⟩ 5000).map
        (fun e => ZeroPositionLsbRegister.zposl (e.regs Register.ZPosL)) =
      Except.ok (5000 &&& 0b111111) :=
  c4_zero_position_roundtrip ⟨fun _ => 0x1234⟩ 5000 (by norm_num)

/-- C9: setting the `zposl` field changes only bits 5..0 — every bit of index
at least 6 of a 16-bit register value, in particular the error-enable flags at
bits 7 and 6, is unchanged, while bits 5..0 become the new field value;
consequently `set_zero_position`'s read-modify-write of the ZPOSL register
preserves the error-enable flag bits of the value it read. -/
theorem c9_set_zposl_frame_effect :
    (∀ v x i : Nat, v < 2 ^ 16 → 6 ≤ i →
      (ZeroPositionLsbRegister.set_zposl v x).testBit i = v.testBit i)
    ∧ (∀ v x : Nat,
        ZeroPositionLsbRegister.zposl (ZeroPositionLsbRegister.set_zposl v x) =
          x &&& 0x3F)
    ∧ (∀ v x : Nat,
        ZeroPositionLsbRegister.comp_h_error_en (ZeroPositionLsbRegister.set_zposl v x) =
          ZeroPositionLsbRegister.comp_h_error_en v
        ∧ ZeroPositionLsbRegister.comp_l_error_en (ZeroPositionLsbRegister.set_zposl v x) =
          ZeroPositionLsbRegister.comp_l_error_en v)
    ∧ ∀ (d : Device) (w : Nat),
        (set_zero_position d w).map (fun d1 =>
          (ZeroPositionLsbRegister.comp_h_error_en (d1.regs Register.ZPosL),
            ZeroPositionLsbRegister.comp_l_error_en (d1.regs Register.ZPosL))) =
        Except.ok (ZeroPositionLsbRegister.comp_h_error_en (d.regs Register.ZPosL),
          ZeroPositionLsbRegister.comp_l_error_en (d.regs Register.ZPosL)) := by
  refine ⟨?_, ?_, ?_, ?_⟩
  · intro v x i hv hi
    rcases lt_or_ge i 16 with h16 | h16
    · exact set_zposl_testBit_high v x i hi h16
    · have hvf : v.testBit i = false :=
        Nat.testBit_eq_false_of_lt
          (lt_of_lt_of_le hv (Nat.pow_le_pow_right (by norm_num) h16))
      have hcf : Nat.testBit 0xFFC0 i = false :=
        Nat.testBit_eq_false_of_lt
          (lt_of_lt_of_le (by norm_num) (Nat.pow_le_pow_right (by norm_num) h16))
      have h3f : Nat.testBit 0x3F i = false :=
        Nat.testBit_eq_false_of_lt
          (lt_of_lt_of_le (by norm_num) (Nat.pow_le_pow_right (by norm_num) hi))
      unfold ZeroPositionLsbRegister.set_zposl
      rw [Nat.testBit_lor, Nat.testBit_land, Nat.testBit_land, hvf, hcf, h3f]
      simp
  · intro v x
    exact set_zposl_low v x
  · intro v x
    exact ⟨set_zposl_testBit_high v x 7 (by norm_num) (by norm_num),
      set_zposl_testBit_high v x 6 (by norm_num) (by norm_num)⟩
  · intro d w
    rw [set_zero_position_eq d w]
    dsimp only [Except.map]
    rw [store_regs_ne _ _ _ _ (by decide), store_regs_self]
    have e7 : ZeroPositionLsbRegister.comp_h_error_en
        (ZeroPositionLsbRegister.set_zposl (d.regs Register.ZPosL &&& DATA_MASK)
          ((w &&& 63) % 256) &&& DATA_MASK) =
        ZeroPositionLsbRegister.comp_h_error_en (d.regs Register.ZPosL) := by
      unfold ZeroPositionLsbRegister.comp_h_error_en
      rw [testBit_masked_high _ 7 (by norm_num),
        set_zposl_testBit_high _ _ 7 (by norm_num) (by norm_num),
        testBit_masked_high _ 7 (by norm_num)]
    have e6 : ZeroPositionLsbRegister.comp_l_error_en
        (ZeroPositionLsbRegister.set_zposl (d.regs Register.ZPosL &&& DATA_MASK)
          ((w &&& 63) % 256) &&& DATA_MASK) =
        ZeroPositionLsbRegister.comp_l_error_en (d.regs Register.ZPosL) := by
      unfold ZeroPositionLsbRegister.comp_l_error_en
      rw [testBit_masked_high _ 6 (by norm_num),
        set_zposl_testBit_high _ _ 6 (by norm_num) (by norm_num),
        testBit_masked_high _ 6 (by norm_num)]
    rw [e7, e6]

/-- C9 witness: the frame effect evaluated at the register value 0xABCD with
new field value 9, at bit 7, and through a concrete `set_zero_position` run. -/
theorem c9_set_zposl_frame_effect_witness :
    (ZeroPositionLsbRegister.set_zposl 0xABCD 9).testBit 7 = (0xABCD : Nat).testBit 7 := by
  have h := c9_set_zposl_frame_effect
  exact h.1 0xABCD 9 7 (by norm_num) (by norm_num)

end As5047d
